import Mathlib

/-!
Shallow embedding of the books router (`src/routes/books` handlers for
`GET /get_by_rating/:rating` and `DELETE /books/delete_by_range/:min/:max`)
together with the row formatter `formatBooks` and the semantics of the two
parameterized SQL statements they issue against the pool.

Modelling conventions:
* JavaScript `parseInt` is `jsParseInt` (skip whitespace, optional sign,
  longest digit prefix, `none` for NaN).
* The database's decoding of a text parameter bound to an integer
  comparison is `pgParseInt` (strict integer literal, whitespace allowed
  around it, anything else is a query error).
* A query string parameter is `Option String`; reading an absent one the
  way `parseInt(request.query.x as string)` does yields the string
  "undefined", as JavaScript stringifies `undefined`.
* The database table is a `List StoredBook`; `pool.query` round-trip
  failure is an explicit boolean `dbFail` argument of the handler model.
-/

namespace BookApi

/-- Decimal digit characters. -/
def isDigitChar (c : Char) : Bool := 48 ≤ c.toNat && c.toNat ≤ 57

/-- Whitespace skipped by `parseInt` and by the SQL integer reader. -/
def isSpaceChar (c : Char) : Bool := c == ' ' || c == '\t' || c == '\n' || c == '\r'

/-- Value of a run of decimal digits. -/
def digitsToNat (ds : List Char) : Nat := ds.foldl (fun n c => 10 * n + (c.toNat - 48)) 0

/-- JavaScript `parseInt(s)` (radix 10): skip leading whitespace, read an
optional sign and then the longest prefix of decimal digits; `none` models
`NaN` (no digits at all). Trailing garbage after the digits is ignored, so
`jsParseInt "3.7" = some 3`. -/
def jsParseInt (s : String) : Option Int :=
  let cs := s.data.dropWhile isSpaceChar
  match cs with
  | '-' :: rest =>
    let ds := rest.takeWhile isDigitChar
    if ds.isEmpty then none else some (-(digitsToNat ds : Int))
  | '+' :: rest =>
    let ds := rest.takeWhile isDigitChar
    if ds.isEmpty then none else some ((digitsToNat ds : Int))
  | _ =>
    let ds := cs.takeWhile isDigitChar
    if ds.isEmpty then none else some ((digitsToNat ds : Int))

/-- Shared core of `pgParseInt`: digits then optional trailing whitespace,
nothing else. -/
def pgParseIntCore (l : List Char) (neg : Bool) : Option Int :=
  let ds := l.takeWhile isDigitChar
  let rest := (l.dropWhile isDigitChar).dropWhile isSpaceChar
  if ds.isEmpty || !rest.isEmpty then none
  else some (if neg then -(digitsToNat ds : Int) else (digitsToNat ds : Int))

/-- The database's reading of a text parameter bound where an integer is
expected: optional surrounding whitespace, optional sign, one or more
digits, and nothing else; any other string makes the query fail.
`pgParseInt "1990abc" = none` while `jsParseInt "1990abc" = some 1990`. -/
def pgParseInt (s : String) : Option Int :=
  match s.data.dropWhile isSpaceChar with
  | '-' :: rest => pgParseIntCore rest true
  | '+' :: rest => pgParseIntCore rest false
  | cs => pgParseIntCore cs false

/-- A stored row of the `books` table (schema read off the column names the
router and formatter use). `rating_avg` is a numeric column, modelled as a
rational. -/
structure StoredBook where
  isbn13 : Int
  authors : String
  title : String
  original_title : String
  publication_year : Int
  rating_avg : Rat
  rating_count : Int
  rating_1_star : Int
  rating_2_star : Int
  rating_3_star : Int
  rating_4_star : Int
  rating_5_star : Int
  image_url : String
  image_small_url : String
deriving DecidableEq

/-- The `IRatings` interface of the router. -/
structure IRatings where
  average : Rat
  count : Int
  rating_1 : Int
  rating_2 : Int
  rating_3 : Int
  rating_4 : Int
  rating_5 : Int
deriving DecidableEq

/-- The `IUrlIcon` interface of the router. -/
structure IUrlIcon where
  large : String
  small : String
deriving DecidableEq

/-- The `IBook` interface of the router (public view of a book). -/
structure IBook where
  isbn13 : Int
  authors : String
  publication : Int
  original_title : String
  title : String
  ratings : IRatings
  icons : IUrlIcon
deriving DecidableEq

/-- `formatBooks` from the router: maps each raw row to the public `IBook`
shape, field by field. -/
def formatBooks (books : List StoredBook) : List IBook :=
  books.map (fun book =>
    { isbn13 := book.isbn13
      authors := book.authors
      publication := book.publication_year
      original_title := book.original_title
      title := book.title
      ratings :=
        { average := book.rating_avg
          count := book.rating_count
          rating_1 := book.rating_1_star
          rating_2 := book.rating_2_star
          rating_3 := book.rating_3_star
          rating_4 := book.rating_4_star
          rating_5 := book.rating_5_star }
      icons :=
        { large := book.image_url
          small := book.image_small_url } })

/-- The SQL text the rating handler sends, verbatim: a fixed string with a
`$1` placeholder, independent of the request. -/
def getByRatingSQL : String := "SELECT * FROM books WHERE FLOOR(rating_avg) = $1"

/-- The SQL text the delete handler sends, verbatim: a fixed string with
`$1`/`$2` placeholders, independent of the request. -/
def deleteByRangeSQL : String :=
  "DELETE FROM books WHERE publication_year >= $1 AND publication_year <= $2"

/-- SQL `FLOOR` on a numeric value: floor of the rational. -/
def sqlFloor (q : Rat) : Int := Int.fdiv q.num (q.den : Int)

/-- Row predicate of the delete statement: `publication_year >= lo AND
publication_year <= hi`. -/
def yearInRange (lo hi : Int) (b : StoredBook) : Bool :=
  decide (lo ≤ b.publication_year) && decide (b.publication_year ≤ hi)

/-- Semantics of `SELECT * FROM books WHERE FLOOR(rating_avg) = $1` with the
integer `r` bound: the rows whose floored average equals `r`, in table
order. -/
def runSelectByRating (db : List StoredBook) (r : Int) : List StoredBook :=
  db.filter (fun b => sqlFloor b.rating_avg == r)

/-- Semantics of the range delete once both bounds are integers: the table
keeps the rows outside the range and `rowCount` is the number removed. -/
def runDeleteByRangeInt (db : List StoredBook) (lo hi : Int) : List StoredBook × Nat :=
  (db.filter (fun b => !(yearInRange lo hi b)), (db.filter (yearInRange lo hi)).length)

/-- Semantics of `DELETE ... $1 ... $2` with the two *text* parameters the
handler binds: the database first decodes each text parameter as an
integer; a decode failure is a query error (`none`). -/
def runDeleteByRange (db : List StoredBook) (pmin pmax : String) :
    Option (List StoredBook × Nat) :=
  match pgParseInt pmin, pgParseInt pmax with
  | some lo, some hi => some (runDeleteByRangeInt db lo hi)
  | _, _ => none

/-- Response bodies the two handlers can send. -/
inductive Body where
  | msg (message : String)
  | books (books : List IBook)
  | deleteOk (message : String) (deletedCount : Nat)
deriving DecidableEq

/-- An HTTP response: status code and JSON body. `response.send` with no
explicit status is status 200. -/
structure HttpResponse where
  status : Nat
  body : Body
deriving DecidableEq

/-- The query, if any, that a handler actually passed to `pool.query`:
the SQL text and the separately bound parameter values. -/
inductive ExecutedQuery where
  | selectByRating (sql : String) (rating : Int)
  | deleteByRange (sql : String) (minParam maxParam : String)
deriving DecidableEq

/-- Net effect of one request: the response sent, the table afterwards, and
the query (if any) that reached the pool. -/
structure Outcome where
  resp : HttpResponse
  db : List StoredBook
  executed : Option ExecutedQuery
deriving DecidableEq

/-- A request to `GET /get_by_rating/:rating`: the `:rating` path segment
and the optional `rating` query-string parameter. -/
structure GetByRatingRequest where
  pathRating : String
  queryRating : Option String
deriving DecidableEq

/-- A request to `DELETE /books/delete_by_range/:min/:max`: the two path
segments and the optional `min`/`max` query-string parameters. -/
structure DeleteByRangeRequest where
  pathMin : String
  pathMax : String
  queryMin : Option String
  queryMax : Option String
deriving DecidableEq

/-- `request.query.x as string` as `parseInt` sees it: an absent parameter
is the string "undefined". -/
def rawParam : Option String → String
  | some s => s
  | none => "undefined"

/-- JavaScript falsiness of `request.query.rating`: absent or the empty
string. -/
def rawIsFalsy : Option String → Bool
  | some s => s == ""
  | none => true

/-- 400 message of the rating handler's second check. -/
def invalidRatingMsg : String :=
  "Invalid rating parameter. Please specify a rating between 1 and 5."

/-- 400 message of the delete handler's check. -/
def invalidDateMsg : String :=
  "Invalid date parameters. Please specify a min and max publication year. min must be less than max."

/-- Generic 500 message of both catch branches. -/
def serverErrorMsg : String := "Server error - contact support"

/-- The `GET /get_by_rating/:rating` handler, line by line: falsy-check the
`rating` query parameter, `parseInt` it, reject NaN or out-of-range, then
run the parameterized select; `dbFail` is a round-trip failure caught by
the `.catch` branch. -/
def processGetByRating (req : GetByRatingRequest) (db : List StoredBook)
    (dbFail : Bool) : Outcome :=
  if rawIsFalsy req.queryRating then
    ⟨⟨400, Body.msg "Rating parameter is required."⟩, db, none⟩
  else
    match jsParseInt (rawParam req.queryRating) with
    | none => ⟨⟨400, Body.msg invalidRatingMsg⟩, db, none⟩
    | some rating =>
      if rating < 1 || rating > 5 then
        ⟨⟨400, Body.msg invalidRatingMsg⟩, db, none⟩
      else if dbFail then
        ⟨⟨500, Body.msg serverErrorMsg⟩, db,
          some (ExecutedQuery.selectByRating getByRatingSQL rating)⟩
      else if (runSelectByRating db rating).isEmpty then
        ⟨⟨404, Body.msg "No books found with that rating."⟩, db,
          some (ExecutedQuery.selectByRating getByRatingSQL rating)⟩
      else
        ⟨⟨200, Body.books (formatBooks (runSelectByRating db rating))⟩, db,
          some (ExecutedQuery.selectByRating getByRatingSQL rating)⟩

/-- The `DELETE /books/delete_by_range/:min/:max` handler, line by line:
the bound values are the *raw* `request.query.min`/`request.query.max`
strings, validation uses `parseInt` of the same strings, and `min > max`
or NaN is a 400 before `pool.query` is called. -/
def processDeleteByRange (req : DeleteByRangeRequest) (db : List StoredBook)
    (dbFail : Bool) : Outcome :=
  match jsParseInt (rawParam req.queryMin), jsParseInt (rawParam req.queryMax) with
  | some mn, some mx =>
    if mn > mx then ⟨⟨400, Body.msg invalidDateMsg⟩, db, none⟩
    else if dbFail then
      ⟨⟨500, Body.msg serverErrorMsg⟩, db,
        some (ExecutedQuery.deleteByRange deleteByRangeSQL
          (rawParam req.queryMin) (rawParam req.queryMax))⟩
    else
      match runDeleteByRange db (rawParam req.queryMin) (rawParam req.queryMax) with
      | none =>
        ⟨⟨500, Body.msg serverErrorMsg⟩, db,
          some (ExecutedQuery.deleteByRange deleteByRangeSQL
            (rawParam req.queryMin) (rawParam req.queryMax))⟩
      | some p =>
        ⟨⟨200, Body.deleteOk "Books successfully deleted" p.2⟩, p.1,
          some (ExecutedQuery.deleteByRange deleteByRangeSQL
            (rawParam req.queryMin) (rawParam req.queryMax))⟩
  | _, _ => ⟨⟨400, Body.msg invalidDateMsg⟩, db, none⟩

/-- Sequentialisation of a set of concurrent range deletes: each handler
performs exactly one atomic `DELETE` statement and shares no in-process
state, so any interleaving of the calls is some sequential order of the
atomic deletes; `runDeletes` runs them in list order and collects each
call's `rowCount`. -/
def runDeletes (db : List StoredBook) (rs : List (Int × Int)) :
    List StoredBook × List Nat :=
  match rs with
  | [] => (db, [])
  | r :: rest =>
    ((runDeletes (runDeleteByRangeInt db r.1 r.2).1 rest).1,
      (runDeleteByRangeInt db r.1 r.2).2
        :: (runDeletes (runDeleteByRangeInt db r.1 r.2).1 rest).2)

/-- Membership of a year in the union of a list of ranges. -/
def inUnion (rs : List (Int × Int)) (y : Int) : Bool :=
  rs.any (fun r => decide (r.1 ≤ y) && decide (y ≤ r.2))

/-- A concrete stored row used to instantiate theorems. -/
def book1995 : StoredBook :=
  { isbn13 := 9780316015844
    authors := "Sample Author"
    title := "Sample Title"
    original_title := "Sample Original"
    publication_year := 1995
    rating_avg := Rat.divInt 7 2
    rating_count := 100
    rating_1_star := 5
    rating_2_star := 10
    rating_3_star := 20
    rating_4_star := 30
    rating_5_star := 35
    image_url := "https://example.org/large.jpg"
    image_small_url := "https://example.org/small.jpg" }

/-- Helper: filtering by a predicate after keeping its complement leaves
nothing. -/
theorem filter_not_filter_eq_nil {α : Type} (p : α → Bool) (l : List α) :
    (l.filter (fun a => !(p a))).filter p = [] := by
  induction l with
  | nil => rfl
  | cons a t ih =>
    by_cases h : p a = true
    · simp [List.filter_cons, h, ih]
    · simp [List.filter_cons, h, ih]

/-- Helper: a stronger predicate keeps at most as many elements. -/
theorem length_filter_mono {α : Type} (p q : α → Bool) (l : List α)
    (h : ∀ a, p a = true → q a = true) :
    (l.filter p).length ≤ (l.filter q).length := by
  induction l with
  | nil => simp
  | cons a t ih =>
    by_cases hp : p a = true
    · have hq := h a hp
      simp [List.filter_cons, hp, hq]
      omega
    · by_cases hq : q a = true <;>
        simp [List.filter_cons, hp, hq] <;> omega

/-- C7. `formatBooks` maps every stored row, position by position, to the
public `IBook` shape: `ratings.average` is the row's `rating_avg`,
`icons.large`/`icons.small` are `image_url`/`image_small_url`,
`publication` is `publication_year`, and `isbn13`, `authors`, `title`,
`original_title` and the five per-star counts carry over unchanged. Being a
Lean function, it is pure by construction. -/
theorem formatBooks_maps_each_field (bs : List StoredBook) (i : Nat)
    (h : i < (formatBooks bs).length) (h2 : i < bs.length) :
    ((formatBooks bs).get ⟨i, h⟩).ratings.average = (bs.get ⟨i, h2⟩).rating_avg ∧
    ((formatBooks bs).get ⟨i, h⟩).icons.large = (bs.get ⟨i, h2⟩).image_url ∧
    ((formatBooks bs).get ⟨i, h⟩).icons.small = (bs.get ⟨i, h2⟩).image_small_url ∧
    ((formatBooks bs).get ⟨i, h⟩).publication = (bs.get ⟨i, h2⟩).publication_year ∧
    ((formatBooks bs).get ⟨i, h⟩).isbn13 = (bs.get ⟨i, h2⟩).isbn13 ∧
    ((formatBooks bs).get ⟨i, h⟩).authors = (bs.get ⟨i, h2⟩).authors ∧
    ((formatBooks bs).get ⟨i, h⟩).title = (bs.get ⟨i, h2⟩).title ∧
    ((formatBooks bs).get ⟨i, h⟩).original_title = (bs.get ⟨i, h2⟩).original_title ∧
    ((formatBooks bs).get ⟨i, h⟩).ratings.count = (bs.get ⟨i, h2⟩).rating_count ∧
    ((formatBooks bs).get ⟨i, h⟩).ratings.rating_1 = (bs.get ⟨i, h2⟩).rating_1_star ∧
    ((formatBooks bs).get ⟨i, h⟩).ratings.rating_2 = (bs.get ⟨i, h2⟩).rating_2_star ∧
    ((formatBooks bs).get ⟨i, h⟩).ratings.rating_3 = (bs.get ⟨i, h2⟩).rating_3_star ∧
    ((formatBooks bs).get ⟨i, h⟩).ratings.rating_4 = (bs.get ⟨i, h2⟩).rating_4_star ∧
    ((formatBooks bs).get ⟨i, h⟩).ratings.rating_5 = (bs.get ⟨i, h2⟩).rating_5_star := by
  have hget : (formatBooks bs).get ⟨i, h⟩ =
      { isbn13 := (bs.get ⟨i, h2⟩).isbn13
        authors := (bs.get ⟨i, h2⟩).authors
        publication := (bs.get ⟨i, h2⟩).publication_year
        original_title := (bs.get ⟨i, h2⟩).original_title
        title := (bs.get ⟨i, h2⟩).title
        ratings :=
          { average := (bs.get ⟨i, h2⟩).rating_avg
            count := (bs.get ⟨i, h2⟩).rating_count
            rating_1 := (bs.get ⟨i, h2⟩).rating_1_star
            rating_2 := (bs.get ⟨i, h2⟩).rating_2_star
            rating_3 := (bs.get ⟨i, h2⟩).rating_3_star
            rating_4 := (bs.get ⟨i, h2⟩).rating_4_star
            rating_5 := (bs.get ⟨i, h2⟩).rating_5_star }
        icons :=
          { large := (bs.get ⟨i, h2⟩).image_url
            small := (bs.get ⟨i, h2⟩).image_small_url } } := by
    simp [formatBooks]
  rw [hget]
  exact ⟨rfl, rfl, rfl, rfl, rfl, rfl, rfl, rfl, rfl, rfl, rfl, rfl, rfl, rfl⟩

/-- Witness for C7 at a concrete row. -/
theorem formatBooks_maps_each_field_witness :
    ((formatBooks [book1995]).get ⟨0, by decide⟩).ratings.average
      = ([book1995].get ⟨0, by decide⟩).rating_avg :=
  (formatBooks_maps_each_field [book1995] 0 (by decide) (by decide)).1

/-- C2, counterexample: a `rating` of "3.7" is not an integer, yet the
handler does not answer 400: `parseInt` truncates it to 3, the query runs
(`executed` is some select with 3 bound), and on an empty table the
response is 404. -/
theorem get_by_rating_noninteger_not_rejected :
    jsParseInt "3.7" = some 3 ∧
    (processGetByRating ⟨"3", some "3.7"⟩ [] false).resp.status = 404 ∧
    (processGetByRating ⟨"3", some "3.7"⟩ [] false).executed
      = some (ExecutedQuery.selectByRating getByRatingSQL 3) := by
  refine ⟨by decide, by decide, by decide⟩

/-- C2, amended: the handler answers 400 with no query executed exactly on
`parseInt`-rejected input: a missing or empty `rating`, one whose
`parseInt` is NaN, or one whose parsed value is outside [1,5]. A
non-integer numeric such as "3.7" is truncated by `parseInt` and, when the
truncation is in range, accepted. -/
theorem get_by_rating_invalid_400 (req : GetByRatingRequest)
    (db : List StoredBook) (dbFail : Bool)
    (h : rawIsFalsy req.queryRating = true ∨
         jsParseInt (rawParam req.queryRating) = none ∨
         ∃ r, jsParseInt (rawParam req.queryRating) = some r ∧ (r < 1 ∨ 5 < r)) :
    (processGetByRating req db dbFail).resp.status = 400 ∧
    (processGetByRating req db dbFail).executed = none ∧
    (processGetByRating req db dbFail).db = db := by
  by_cases hf : rawIsFalsy req.queryRating = true
  · simp [processGetByRating, hf]
  · rcases h with h | h | ⟨r, hr, hlt⟩
    · exact absurd h hf
    · simp [processGetByRating, hf, h]
    · have hcond : (decide (r < 1) || decide (r > 5)) = true := by
        rcases hlt with h1 | h1 <;> simp [h1]
      simp [processGetByRating, hf, hr, hcond]

/-- Witness for C2's amended theorem: rating "abc" is rejected with 400 and
no query. -/
theorem get_by_rating_invalid_400_witness :
    (processGetByRating ⟨"2", some "abc"⟩ [book1995] false).resp.status = 400 ∧
    (processGetByRating ⟨"2", some "abc"⟩ [book1995] false).executed = none ∧
    (processGetByRating ⟨"2", some "abc"⟩ [book1995] false).db = [book1995] :=
  get_by_rating_invalid_400 ⟨"2", some "abc"⟩ [book1995] false (Or.inr (Or.inl rfl))

/-- C4. When `min` or `max` fails `parseInt` (NaN, including an absent
parameter) or both parse with min > max, the delete handler answers 400
with the invalid-date message, `pool.query` is never called, and the table
is unchanged. -/
theorem delete_by_range_invalid_400 (req : DeleteByRangeRequest)
    (db : List StoredBook) (dbFail : Bool)
    (h : jsParseInt (rawParam req.queryMin) = none ∨
         jsParseInt (rawParam req.queryMax) = none ∨
         ∃ mn mx, jsParseInt (rawParam req.queryMin) = some mn ∧
           jsParseInt (rawParam req.queryMax) = some mx ∧ mx < mn) :
    (processDeleteByRange req db dbFail).resp = ⟨400, Body.msg invalidDateMsg⟩ ∧
    (processDeleteByRange req db dbFail).executed = none ∧
    (processDeleteByRange req db dbFail).db = db := by
  rcases h with h | h | ⟨mn, mx, hmn, hmx, hlt⟩
  · cases hmax : jsParseInt (rawParam req.queryMax) <;>
      simp [processDeleteByRange, h, hmax]
  · cases hmin : jsParseInt (rawParam req.queryMin) <;>
      simp [processDeleteByRange, h, hmin]
  · simp [processDeleteByRange, hmn, hmx, hlt]

/-- Witness for C4: min "abc" is rejected with 400, no query, table
unchanged. -/
theorem delete_by_range_invalid_400_witness :
    (processDeleteByRange ⟨"1990", "2000", some "abc", some "2000"⟩ [book1995] false).resp
      = ⟨400, Body.msg invalidDateMsg⟩ ∧
    (processDeleteByRange ⟨"1990", "2000", some "abc", some "2000"⟩ [book1995] false).executed
      = none ∧
    (processDeleteByRange ⟨"1990", "2000", some "abc", some "2000"⟩ [book1995] false).db
      = [book1995] :=
  delete_by_range_invalid_400 ⟨"1990", "2000", some "abc", some "2000"⟩ [book1995] false
    (Or.inl rfl)

/-- Helper: the delete handler either never reaches the pool or passes it
exactly the fixed SQL text with the raw query-string values bound. -/
theorem deleteByRange_executed_shape (req : DeleteByRangeRequest)
    (db : List StoredBook) (dbFail : Bool) :
    (processDeleteByRange req db dbFail).executed = none ∨
    (processDeleteByRange req db dbFail).executed
      = some (ExecutedQuery.deleteByRange deleteByRangeSQL
          (rawParam req.queryMin) (rawParam req.queryMax)) := by
  unfold processDeleteByRange
  split
  · split
    · exact Or.inl rfl
    · split
      · exact Or.inr rfl
      · split
        · exact Or.inr rfl
        · exact Or.inr rfl
  · exact Or.inl rfl

/-- C1, counterexample: with `min=1990abc&max=2000` the validated values
are 1990 and 2000 (so the claim's hypothesis holds), but the handler binds
the raw string "1990abc", the database rejects it, the response is 500 and
the row with publication_year 1995 is *not* removed. -/
theorem delete_by_range_binds_raw_counterexample :
    jsParseInt "1990abc" = some 1990 ∧
    jsParseInt "2000" = some 2000 ∧
    (1990 : Int) ≤ 2000 ∧
    (processDeleteByRange ⟨"1990", "2000", some "1990abc", some "2000"⟩ [book1995]
        false).executed
      = some (ExecutedQuery.deleteByRange deleteByRangeSQL "1990abc" "2000") ∧
    (processDeleteByRange ⟨"1990", "2000", some "1990abc", some "2000"⟩ [book1995]
        false).resp.status = 500 ∧
    (processDeleteByRange ⟨"1990", "2000", some "1990abc", some "2000"⟩ [book1995]
        false).db = [book1995] := by
  refine ⟨by decide, by decide, by decide, by decide, by decide, by decide⟩

/-- C1, amended: the handler binds the *raw* `min`/`max` query strings, not
the parsed integers. When the raw strings are themselves integer literals
(so the database decodes them to the same validated values `mn ≤ mx`), the
executed statement is the fixed parameterized DELETE with those two values
bound, it removes exactly the rows with `publication_year` in `[mn, mx]`,
`deletedCount` is the number of rows removed, and an immediately repeated
identical call deletes 0 rows. -/
theorem delete_by_range_valid_literal (req : DeleteByRangeRequest)
    (db : List StoredBook) (mn mx : Int)
    (hjmin : jsParseInt (rawParam req.queryMin) = some mn)
    (hjmax : jsParseInt (rawParam req.queryMax) = some mx)
    (hpmin : pgParseInt (rawParam req.queryMin) = some mn)
    (hpmax : pgParseInt (rawParam req.queryMax) = some mx)
    (hle : mn ≤ mx) :
    (processDeleteByRange req db false).executed
      = some (ExecutedQuery.deleteByRange deleteByRangeSQL
          (rawParam req.queryMin) (rawParam req.queryMax)) ∧
    (processDeleteByRange req db false).db
      = db.filter (fun b => !(yearInRange mn mx b)) ∧
    (processDeleteByRange req db false).resp
      = ⟨200, Body.deleteOk "Books successfully deleted"
          (db.filter (yearInRange mn mx)).length⟩ ∧
    (processDeleteByRange req ((processDeleteByRange req db false).db) false).resp
      = ⟨200, Body.deleteOk "Books successfully deleted" 0⟩ := by
  have hng : ¬ mn > mx := by omega
  refine ⟨?_, ?_, ?_, ?_⟩
  · simp [processDeleteByRange, hjmin, hjmax, hng, runDeleteByRange, hpmin, hpmax,
      runDeleteByRangeInt]
  · simp [processDeleteByRange, hjmin, hjmax, hng, runDeleteByRange, hpmin, hpmax,
      runDeleteByRangeInt]
  · simp [processDeleteByRange, hjmin, hjmax, hng, runDeleteByRange, hpmin, hpmax,
      runDeleteByRangeInt]
  · simp [processDeleteByRange, hjmin, hjmax, hng, runDeleteByRange, hpmin, hpmax,
      runDeleteByRangeInt, filter_not_filter_eq_nil]

/-- Witness for C1's amended theorem: deleting [1990, 2000] from a table
holding one 1995 book answers 200 with `deletedCount` the size of the
matching set. -/
theorem delete_by_range_valid_literal_witness :
    (processDeleteByRange ⟨"1990", "2000", some "1990", some "2000"⟩ [book1995] false).resp
      = ⟨200, Body.deleteOk "Books successfully deleted"
          (([book1995] : List StoredBook).filter (yearInRange 1990 2000)).length⟩ :=
  (delete_by_range_valid_literal ⟨"1990", "2000", some "1990", some "2000"⟩ [book1995]
    1990 2000 rfl rfl rfl rfl (by decide)).2.2.1

/-- C3. For a valid rating `r` in [1,5], the handler passes the pool the
fixed SQL text `SELECT * FROM books WHERE FLOOR(rating_avg) = $1` with `r`
bound separately, and every row the select returns has
`FLOOR(rating_avg) = r`. -/
theorem get_by_rating_parameterized_query (req : GetByRatingRequest)
    (db : List StoredBook) (r : Int) (s : String)
    (hq : req.queryRating = some s)
    (hp : jsParseInt s = some r) (h1 : 1 ≤ r) (h5 : r ≤ 5) :
    (processGetByRating req db false).executed
      = some (ExecutedQuery.selectByRating getByRatingSQL r) ∧
    ∀ b ∈ runSelectByRating db r, sqlFloor b.rating_avg = r := by
  have hs : s ≠ "" := by
    intro he
    subst he
    rw [show jsParseInt "" = none from by decide] at hp
    cases hp
  have hf : rawIsFalsy req.queryRating = false := by simp [rawIsFalsy, hq, hs]
  have hraw : rawParam req.queryRating = s := by simp [rawParam, hq]
  have hna : ¬ r < 1 := by omega
  have hnb : ¬ r > 5 := by omega
  constructor
  · by_cases he : (runSelectByRating db r).isEmpty = true <;>
      simp [processGetByRating, hf, hraw, hp, hna, hnb, he]
  · intro b hb
    simp [runSelectByRating, List.mem_filter] at hb
    exact hb.2

/-- Witness for C3: rating 3 over a table with one book whose average is
7/2 (floor 3). -/
theorem get_by_rating_parameterized_query_witness :
    (processGetByRating ⟨"3", some "3"⟩ [book1995] false).executed
      = some (ExecutedQuery.selectByRating getByRatingSQL 3) ∧
    ∀ b ∈ runSelectByRating [book1995] 3, sqlFloor b.rating_avg = 3 :=
  get_by_rating_parameterized_query ⟨"3", some "3"⟩ [book1995] 3 "3" rfl rfl
    (by decide) (by decide)

/-- C5. For a valid rating, a select that returns zero rows yields 404 with
exactly "No books found with that rating.", and a non-empty result yields
200 with the formatted rows under `books`. -/
theorem get_by_rating_result_mapping (req : GetByRatingRequest)
    (db : List StoredBook) (r : Int) (s : String)
    (hq : req.queryRating = some s)
    (hp : jsParseInt s = some r) (h1 : 1 ≤ r) (h5 : r ≤ 5) :
    (runSelectByRating db r = [] →
      (processGetByRating req db false).resp
        = ⟨404, Body.msg "No books found with that rating."⟩) ∧
    (runSelectByRating db r ≠ [] →
      (processGetByRating req db false).resp
        = ⟨200, Body.books (formatBooks (runSelectByRating db r))⟩) := by
  have hs : s ≠ "" := by
    intro he
    subst he
    rw [show jsParseInt "" = none from by decide] at hp
    cases hp
  have hf : rawIsFalsy req.queryRating = false := by simp [rawIsFalsy, hq, hs]
  have hraw : rawParam req.queryRating = s := by simp [rawParam, hq]
  have hna : ¬ r < 1 := by omega
  have hnb : ¬ r > 5 := by omega
  constructor
  · intro he
    simp [processGetByRating, hf, hraw, hp, hna, hnb, he]
  · intro he
    cases hrs : runSelectByRating db r with
    | nil => exact absurd hrs he
    | cons a t => simp [processGetByRating, hf, hraw, hp, hna, hnb, hrs]

/-- Witness for C5: rating 3 over the empty table answers 404 with the
exact message. -/
theorem get_by_rating_result_mapping_witness :
    (processGetByRating ⟨"3", some "3"⟩ [] false).resp
      = ⟨404, Body.msg "No books found with that rating."⟩ :=
  (get_by_rating_result_mapping ⟨"3", some "3"⟩ [] 3 "3" rfl rfl
    (by decide) (by decide)).1 rfl

/-- C6. A delete that the database performs answers 200 with the fixed
message and the row count, even when that count is 0; the delete handler
has no 404 branch. -/
theorem delete_by_range_zero_is_success (req : DeleteByRangeRequest)
    (db : List StoredBook) (mn mx : Int)
    (hjmin : jsParseInt (rawParam req.queryMin) = some mn)
    (hjmax : jsParseInt (rawParam req.queryMax) = some mx)
    (hpmin : pgParseInt (rawParam req.queryMin) = some mn)
    (hpmax : pgParseInt (rawParam req.queryMax) = some mx)
    (hle : mn ≤ mx) :
    (processDeleteByRange req db false).resp.status = 200 ∧
    (processDeleteByRange req db false).resp.body
      = Body.deleteOk "Books successfully deleted"
          (db.filter (yearInRange mn mx)).length ∧
    (processDeleteByRange req db false).resp.status ≠ 404 := by
  have hng : ¬ mn > mx := by omega
  refine ⟨?_, ?_, ?_⟩ <;>
    simp [processDeleteByRange, hjmin, hjmax, hng, runDeleteByRange, hpmin, hpmax,
      runDeleteByRangeInt]

/-- Witness for C6: a range matching no rows still answers 200 with
`deletedCount` 0. -/
theorem delete_by_range_zero_is_success_witness :
    (processDeleteByRange ⟨"1990", "2000", some "1990", some "2000"⟩ [] false).resp.status
      = 200 ∧
    (processDeleteByRange ⟨"1990", "2000", some "1990", some "2000"⟩ [] false).resp.body
      = Body.deleteOk "Books successfully deleted"
          (([] : List StoredBook).filter (yearInRange 1990 2000)).length ∧
    (processDeleteByRange ⟨"1990", "2000", some "1990", some "2000"⟩ [] false).resp.status
      ≠ 404 :=
  delete_by_range_zero_is_success ⟨"1990", "2000", some "1990", some "2000"⟩ []
    1990 2000 rfl rfl rfl rfl (by decide)

/-- C9. Both handlers read only the query string: the result of either
handler is unchanged under any change of the path segments; an absent
`rating` query parameter is answered 400 "Rating parameter is required."
whatever the `:rating` path segment holds; and any delete statement that
reaches the pool binds exactly `request.query.min` and `request.query.max`. -/
theorem handlers_read_query_not_path (p1 p2 pm1 px1 pm2 px2 : String)
    (q qmin qmax : Option String) (db : List StoredBook) (dbFail : Bool) :
    processGetByRating ⟨p1, q⟩ db dbFail = processGetByRating ⟨p2, q⟩ db dbFail ∧
    processDeleteByRange ⟨pm1, px1, qmin, qmax⟩ db dbFail
      = processDeleteByRange ⟨pm2, px2, qmin, qmax⟩ db dbFail ∧
    (q = none →
      (processGetByRating ⟨p1, q⟩ db dbFail).resp
        = ⟨400, Body.msg "Rating parameter is required."⟩) ∧
    (∀ sql a b,
      (processDeleteByRange ⟨pm1, px1, qmin, qmax⟩ db dbFail).executed
          = some (ExecutedQuery.deleteByRange sql a b) →
      sql = deleteByRangeSQL ∧ a = rawParam qmin ∧ b = rawParam qmax) := by
  refine ⟨rfl, rfl, ?_, ?_⟩
  · intro hq
    subst hq
    rfl
  · intro sql a b hex
    rcases deleteByRange_executed_shape ⟨pm1, px1, qmin, qmax⟩ db dbFail with hsh | hsh
    · rw [hsh] at hex
      cases hex
    · rw [hsh] at hex
      injection hex with h
      injection h with h1 h2 h3
      exact ⟨h1.symm, h2.symm, h3.symm⟩

/-- Witness for C9: a request whose path segment is a valid rating but
whose query string lacks `rating` is still rejected with the
required-parameter message. -/
theorem handlers_read_query_not_path_witness :
    (processGetByRating ⟨"4", none⟩ [book1995] false).resp
      = ⟨400, Body.msg "Rating parameter is required."⟩ :=
  (handlers_read_query_not_path "4" "9" "a" "b" "c" "d" none none none [book1995]
    false).2.2.1 rfl

/-- Helper: if the rating handler reached the pool and the round-trip
fails, the catch branch answers 500 with the generic message. -/
theorem getByRating_dbFail_500 (req : GetByRatingRequest) (db : List StoredBook) :
    (processGetByRating req db true).executed.isSome = true →
    (processGetByRating req db true).resp = ⟨500, Body.msg serverErrorMsg⟩ := by
  unfold processGetByRating
  split
  · intro h
    simp at h
  · split
    · intro h
      simp at h
    · split
      · intro h
        simp at h
      · split
        · intro _
          rfl
        · rename_i hcontra
          exact absurd rfl hcontra

/-- Helper: same for the delete handler's catch branch. -/
theorem deleteByRange_dbFail_500 (req : DeleteByRangeRequest) (db : List StoredBook) :
    (processDeleteByRange req db true).executed.isSome = true →
    (processDeleteByRange req db true).resp = ⟨500, Body.msg serverErrorMsg⟩ := by
  unfold processDeleteByRange
  split
  · split
    · intro h
      simp at h
    · split
      · intro _
        rfl
      · rename_i hcontra
        exact absurd rfl hcontra
  · intro h
    simp at h

/-- Helper: every non-200 response of the rating handler carries a plain
message body. -/
theorem getByRating_error_body (req : GetByRatingRequest) (db : List StoredBook)
    (dbFail : Bool) :
    (processGetByRating req db dbFail).resp.status ≠ 200 →
    ∃ m, (processGetByRating req db dbFail).resp.body = Body.msg m := by
  unfold processGetByRating
  split
  · intro _
    exact ⟨_, rfl⟩
  · split
    · intro _
      exact ⟨_, rfl⟩
    · split
      · intro _
        exact ⟨_, rfl⟩
      · split
        · intro _
          exact ⟨_, rfl⟩
        · split
          · intro _
            exact ⟨_, rfl⟩
          · intro h
            exact absurd rfl h

/-- Helper: every non-200 response of the delete handler carries a plain
message body. -/
theorem deleteByRange_error_body (req : DeleteByRangeRequest) (db : List StoredBook)
    (dbFail : Bool) :
    (processDeleteByRange req db dbFail).resp.status ≠ 200 →
    ∃ m, (processDeleteByRange req db dbFail).resp.body = Body.msg m := by
  unfold processDeleteByRange
  split
  · split
    · intro _
      exact ⟨_, rfl⟩
    · split
      · intro _
        exact ⟨_, rfl⟩
      · split
        · intro _
          exact ⟨_, rfl⟩
        · intro h
          exact absurd rfl h
  · intro _
    exact ⟨_, rfl⟩

/-- C8. On either endpoint a failed pool round-trip is caught at the
handler boundary and answered 500 with the generic
"Server error - contact support" (no internal detail), and every failure
response of either handler — 400, 404 or 500 — has a body that is a single
message string. -/
theorem handlers_failure_shape (reqG : GetByRatingRequest)
    (reqD : DeleteByRangeRequest) (db : List StoredBook) (dbFail : Bool) :
    ((processGetByRating reqG db true).executed.isSome = true →
      (processGetByRating reqG db true).resp = ⟨500, Body.msg serverErrorMsg⟩) ∧
    ((processDeleteByRange reqD db true).executed.isSome = true →
      (processDeleteByRange reqD db true).resp = ⟨500, Body.msg serverErrorMsg⟩) ∧
    ((processGetByRating reqG db dbFail).resp.status ≠ 200 →
      ∃ m, (processGetByRating reqG db dbFail).resp.body = Body.msg m) ∧
    ((processDeleteByRange reqD db dbFail).resp.status ≠ 200 →
      ∃ m, (processDeleteByRange reqD db dbFail).resp.body = Body.msg m) :=
  ⟨getByRating_dbFail_500 reqG db, deleteByRange_dbFail_500 reqD db,
    getByRating_error_body reqG db dbFail, deleteByRange_error_body reqD db dbFail⟩

/-- Witness for C8: a failed round-trip on a valid rating request yields
exactly the generic 500. -/
theorem handlers_failure_shape_witness :
    (processGetByRating ⟨"3", some "3"⟩ [] true).resp = ⟨500, Body.msg serverErrorMsg⟩ :=
  (handlers_failure_shape ⟨"3", some "3"⟩ ⟨"a", "b", none, none⟩ [] true).1 (by decide)

/-- Helper: membership in the union of a cons of ranges, pointwise. -/
theorem inUnion_cons (lo hi : Int) (rest : List (Int × Int)) (b : StoredBook) :
    inUnion ((lo, hi) :: rest) b.publication_year
      = (yearInRange lo hi b || inUnion rest b.publication_year) := by
  simp [inUnion, yearInRange, List.any_cons]

/-- Helper: rows in the union of a cons split into rows in the head range
and surviving rows in the union of the tail. -/
theorem length_filter_union_split (db : List StoredBook) (lo hi : Int)
    (rest : List (Int × Int)) :
    (db.filter (fun b => inUnion ((lo, hi) :: rest) b.publication_year)).length
      = (db.filter (yearInRange lo hi)).length
        + ((db.filter (fun b => !(yearInRange lo hi b))).filter
            (fun b => inUnion rest b.publication_year)).length := by
  simp only [inUnion_cons, List.filter_filter]
  induction db with
  | nil => rfl
  | cons b t ih =>
    by_cases h1 : yearInRange lo hi b = true <;>
      by_cases h2 : inUnion rest b.publication_year = true <;>
        simp [List.filter_cons, h1, h2, ih] <;> omega

/-- C10. Any interleaving of concurrent range deletes is a sequential order
of their atomic DELETE statements (each handler performs exactly one pool
query and shares no in-process state). Run in any order, the `rowCount`
values the calls return sum to at most the number of rows whose
`publication_year` lay in the union of the ranges in the starting table:
no row is counted by two calls. -/
theorem concurrent_deletes_no_double_count (db : List StoredBook)
    (rs : List (Int × Int)) :
    ((runDeletes db rs).2).sum
      ≤ (db.filter (fun b => inUnion rs b.publication_year)).length := by
  induction rs generalizing db with
  | nil => simp [runDeletes]
  | cons r rest ih =>
    obtain ⟨lo, hi⟩ := r
    have hsplit := length_filter_union_split db lo hi rest
    have hih := ih (db.filter (fun b => !(yearInRange lo hi b)))
    simp only [runDeletes, runDeleteByRangeInt, List.sum_cons]
    omega

end BookApi
